import Mathlib

/-!
Shallow embedding of `src/chess-bot.py` (a Telegram bot that polls the
Lichess current-game API for a list of monitored players and notifies a
single registered chat).  Pure Python functions become Lean functions; the
mutable global dict `dados` becomes an explicit `Dados` record threaded
through each operation; network fetches and message sends become oracle
parameters (`Option Resposta` for the HTTP response or a raised exception,
`Bool` for whether the send succeeds or raises).
-/

namespace ChessBot

/-- Python `str.lower()`: every character lower-cased. -/
def pyLower (s : String) : String :=
  String.mk (s.data.map Char.toLower)

/-- Python `str.capitalize()`: first character upper-cased, the rest
lower-cased. -/
def pyCapitalize (s : String) : String :=
  match s.data with
  | [] => ""
  | c :: cs => String.mk (c.toUpper :: cs.map Char.toLower)

/-- Python truthiness of the optional string `partida.get("id")`:
falsy when the key is absent (`None`) or the value is the empty string. -/
def id_presente : Option String → Bool
  | none => false
  | some s => !(s == "")

/-- The JSON payload of a 200 response from
`https://lichess.org/api/user/{playerId}/current-game`, restricted to the
fields the program reads.  `opponent = none` models the `opponent` key being
absent; `opponent = some u` models it present with optional `username`
sub-field `u`.  `players_white_user_name = none` models the
`players.white.user.name` chain being absent (indexing it raises `KeyError`,
caught by the per-player `except`). -/
structure Partida where
  id : Option String
  speed : Option String
  opponent : Option (Option String)
  players_white_user_name : Option String
  deriving DecidableEq, Repr

/-- An HTTP response: status code plus parsed JSON body. -/
structure Resposta where
  status_code : Nat
  corpo : Partida
  deriving DecidableEq, Repr

/-- The in-memory global `dados` dict.  `partidas_notificadas` is a Python
`set` (built by `set(...)` in `carregar_dados`), modelled as a `Finset`. -/
structure Dados where
  gms_a_monitorar : List String
  partidas_notificadas : Finset String
  ritmos_permitidos : List String
  chat_id : Option Int
  deriving DecidableEq

/-- The JSON file `data_bot.json`: same fields, but `partidas_notificadas`
serialized as a list (`list(dados.get("partidas_notificadas", set()))`). -/
structure DadosArmazenados where
  gms_a_monitorar : List String
  partidas_notificadas : List String
  ritmos_permitidos : List String
  chat_id : Option Int
  deriving DecidableEq

/-- Embeds `salvar_dados`: copies `dados` and converts the notified set to a list
for JSON serialization (the list enumerates the set; we fix the order as the
sorted one — any duplicate-free enumeration round-trips identically). -/
def salvar_dados (d : Dados) : DadosArmazenados :=
  { gms_a_monitorar := d.gms_a_monitorar
    partidas_notificadas := d.partidas_notificadas.sort (· ≤ ·)
    ritmos_permitidos := d.ritmos_permitidos
    chat_id := d.chat_id }

/-- The default configuration created by `carregar_dados` when no data file
exists. -/
def dados_padrao : Dados :=
  { gms_a_monitorar := ["magnuscarlsen", "hikaru"]
    partidas_notificadas := ∅
    ritmos_permitidos := []
    chat_id := none }

/-- Embeds `carregar_dados`: if the file exists (`some a`) load it verbatim,
converting `partidas_notificadas` back to a set; otherwise install the
defaults (which the program then saves). -/
def carregar_dados : Option DadosArmazenados → Dados
  | some a =>
    { gms_a_monitorar := a.gms_a_monitorar
      partidas_notificadas := a.partidas_notificadas.toFinset
      ritmos_permitidos := a.ritmos_permitidos
      chat_id := a.chat_id }
  | none => dados_padrao

/-- Python truthiness of `chat_id` in `if not chat_id:`: falsy when unset
(`None`) or zero. -/
def chat_falsy : Option Int → Bool
  | none => true
  | some n => n == 0

/-- The live-game link `f"https://lichess.org/{id_partida}"`. -/
def link_partida (id_partida : String) : String :=
  "https://lichess.org/" ++ id_partida

/-- The notification text built by `verificar_partidas` (lines 87-93). -/
def mensagem_auto (gm oponente ritmo cor id_partida : String) : String :=
  "📢 *GM " ++ pyCapitalize gm ++ " está jogando!* 📢\n\n⚔️ *Oponente:* " ++
    oponente ++ "\n⌛ *Ritmo:* " ++ pyCapitalize ritmo ++ "\n🎨 *Cor:* " ++
    cor ++ "\n\n🔗 [Ver partida ao vivo](" ++ link_partida id_partida ++ ")"

/-- The notification text built by `verificar_agora` (lines 145-150). -/
def mensagem_manual (gm oponente ritmo id_partida : String) : String :=
  "✅ *" ++ pyCapitalize gm ++ "* está jogando agora!\nOponente: " ++
    oponente ++ "\nRitmo: " ++ ritmo ++ "\n🔗 [Ver partida](" ++
    link_partida id_partida ++ ")"

/-- The malformed-payload guard shared by lines 79 and 141:
`if not id_partida or "opponent" not in partida: continue`. -/
def payload_malformado (p : Partida) : Bool :=
  !(id_presente p.id) || (p.opponent == none)

/-- Outcome of the per-payload evaluation in the scheduled cycle
(lines 78-93 of `verificar_partidas`). -/
inductive Avaliacao where
  /-- Malformed payload, skipped silently (line 79). -/
  | ignorar
  /-- Suppressed by the speed filter (line 82). -/
  | suprimir_ritmo
  /-- Suppressed by the dedup set (line 83). -/
  | suprimir_notificada
  /-- A `KeyError` raised while reading `players.white.user.name` (line 85),
  caught by the per-player `except`. -/
  | erro_chave
  /-- Notify: carries the game id and the message text. -/
  | notificar (id_partida mensagem : String)
  deriving DecidableEq, Repr

/-- The evaluation of one 200 payload in the scheduled cycle, lines 78-93:
malformed-skip, then speed filter, then dedup, then message construction. -/
def avaliar (d : Dados) (gm : String) (p : Partida) : Avaliacao :=
  if payload_malformado p then .ignorar
  else
    let id_partida := p.id.getD ""
    let ritmo_partida := pyLower (p.speed.getD "")
    if d.ritmos_permitidos ≠ [] ∧ ritmo_partida ∉ d.ritmos_permitidos then
      .suprimir_ritmo
    else if id_partida ∈ d.partidas_notificadas then
      .suprimir_notificada
    else
      match p.players_white_user_name with
      | none => .erro_chave
      | some nome_brancas =>
        let oponente := (p.opponent.getD none).getD "Desconhecido"
        let cor := if pyLower nome_brancas == gm then "Brancas" else "Negras"
        .notificar id_partida (mensagem_auto gm oponente ritmo_partida cor id_partida)

/-- One iteration of the scheduled loop, for a single player (lines 72-98), as a function
of the fetch oracle (`none` = the request or JSON parse raised) and the send
oracle (`false` = `send_message` raised).  Returns the updated state and the
list of `(chat, text)` messages delivered.  Every exception is caught by the
per-player `except` and leaves the state unchanged. -/
def passo_verificar (d : Dados) (chat : Int) (gm : String)
    (busca : Option Resposta) (envio : Bool) : Dados × List (Int × String) :=
  match busca with
  | none => (d, [])
  | some resp =>
    if resp.status_code = 200 then
      match avaliar d gm resp.corpo with
      | .notificar id_partida mensagem =>
        if envio then
          ({ d with partidas_notificadas := insert id_partida d.partidas_notificadas },
           [(chat, mensagem)])
        else (d, [])
      | _ => (d, [])
    else (d, [])

/-- The scheduled loop over the monitored list, state threaded through. -/
def ciclo_aux (ent : String → Option Resposta × Bool) (chat : Int) :
    List String → Dados → Dados × List (Int × String)
  | [], d => (d, [])
  | gm :: resto, d =>
    let r1 := passo_verificar d chat gm (ent gm).1 (ent gm).2
    let r2 := ciclo_aux ent chat resto r1.1
    (r2.1, r1.2 ++ r2.2)

/-- Embeds `verificar_partidas` (lines 64-98): abort if no chat is registered, else
iterate the monitored list. -/
def verificar_partidas (d : Dados) (ent : String → Option Resposta × Bool) :
    Dados × List (Int × String) :=
  if chat_falsy d.chat_id then (d, [])
  else ciclo_aux ent (d.chat_id.getD 0) d.gms_a_monitorar d

/-- One iteration of the manual check loop, for a single player (lines 132-153):
returns the increment to `jogos_encontrados` and the messages delivered.
Note the counter is incremented for every 200 response, before the payload
is inspected, and neither the speed filter nor the dedup set is consulted. -/
def passo_agora (chat : Int) (gm : String)
    (busca : Option Resposta) (envio : Bool) : Nat × List (Int × String) :=
  match busca with
  | none => (0, [])
  | some resp =>
    if resp.status_code = 200 then
      let p := resp.corpo
      if payload_malformado p then (1, [])
      else
        let id_partida := p.id.getD ""
        let oponente := (p.opponent.getD none).getD "Desconhecido"
        let ritmo_partida := pyCapitalize (p.speed.getD "Desconhecido")
        let mensagem := mensagem_manual gm oponente ritmo_partida id_partida
        (1, if envio then [(chat, mensagem)] else [])
    else (0, [])

/-- Result of the manual `/verificar` command. -/
structure ResultadoManual where
  /-- Notifications delivered to the registered chat. -/
  avisos : List (Int × String)
  /-- Whether the "Ninguém está jogando no momento." reply was sent. -/
  resposta_ninguem : Bool
  /-- Final value of the `jogos_encontrados` counter. -/
  jogos_encontrados : Nat
  deriving DecidableEq

/-- Embeds `verificar_agora` (lines 124-155).  It threads no state: the global
`dados` is read (`gms_a_monitorar`, `chat_id`) but never written. -/
def verificar_agora (d : Dados) (ent : String → Option Resposta × Bool) :
    ResultadoManual :=
  if chat_falsy d.chat_id then ⟨[], false, 0⟩
  else
    let chat := d.chat_id.getD 0
    let passos := d.gms_a_monitorar.map (fun gm => passo_agora chat gm (ent gm).1 (ent gm).2)
    let total := (passos.map Prod.fst).sum
    ⟨(passos.map Prod.snd).flatten, total == 0, total⟩

/-- Whether a fetch oracle value is a 200 response (`response.status_code == 200`). -/
def resposta_200 : Option Resposta → Bool
  | some r => r.status_code == 200
  | none => false

/-- The add performed at line 95 after a successful send (`markNotified`). -/
def marcar_notificada (d : Dados) (g : String) : Dados :=
  { d with partidas_notificadas := insert g d.partidas_notificadas }

/-- The fixed speed enumeration of line 203. -/
def ritmos_validos : List String := ["bullet", "blitz", "rapid", "classical"]

/-- Replies of the `/filtroritmo` command. -/
inductive RespostaFiltro where
  | uso
  | mostrar (texto : String)
  | removido
  | atualizado (texto : String)
  | nenhum_valido
  deriving DecidableEq, Repr

/-- Embeds `filtro_ritmo` (lines 188-210): view / clear / set the speed filter. -/
def filtro_ritmo (d : Dados) (args : List String) : Dados × RespostaFiltro :=
  match args with
  | [] => (d, .uso)
  | arg0 :: _ =>
    let primeiro_arg := pyLower arg0
    if primeiro_arg = "ver" then
      if d.ritmos_permitidos ≠ [] then
        (d, .mostrar ("Filtro atual: " ++ String.intercalate ", " d.ritmos_permitidos))
      else (d, .mostrar "Nenhum filtro de ritmo ativo.")
    else if primeiro_arg = "todos" then
      ({ d with ritmos_permitidos := [] }, .removido)
    else
      let novos_ritmos := (args.map pyLower).filter (· ∈ ritmos_validos)
      if novos_ritmos ≠ [] then
        ({ d with ritmos_permitidos := novos_ritmos },
         .atualizado ("Filtro de ritmo atualizado para: " ++ String.intercalate ", " novos_ritmos))
      else (d, .nenhum_valido)

/-- Embeds `start` (lines 102-108): unconditionally registers the issuing chat and
persists.  Returns the new state and the snapshot written to disk. -/
def start (d : Dados) (chat_efetivo : Int) : Dados × DadosArmazenados :=
  let d2 := { d with chat_id := some chat_efetivo }
  (d2, salvar_dados d2)

/-- The string `padrao` occurs in `s` as a contiguous substring. -/
def Contem (padrao s : String) : Prop := ∃ a b, s = a ++ padrao ++ b

end ChessBot

namespace ChessBot

/-! ### Concrete values used by witnesses and counterexamples -/

/-- A well-formed active-game payload: id `g1`, speed `blitz`, opponent
`bob`, white-side player `Alice`. -/
def partida_ex : Partida :=
  { id := some "g1", speed := some "blitz", opponent := some (some "bob"),
    players_white_user_name := some "Alice" }

/-- A configuration with a registered chat, one monitored player `alice`,
empty dedup set, and speed filter `["bullet"]`. -/
def dados_ex : Dados :=
  { gms_a_monitorar := ["alice"], partidas_notificadas := ∅,
    ritmos_permitidos := ["bullet"], chat_id := some 7 }

/-- Oracle: every fetch returns 200 with `partida_ex` and every send
succeeds. -/
def ent_ex : String → Option Resposta × Bool :=
  fun _ => (some ⟨200, partida_ex⟩, true)

/-- A malformed payload: the `id` field is absent. -/
def partida_sem_id : Partida :=
  { id := none, speed := some "blitz", opponent := some (some "bob"),
    players_white_user_name := some "Alice" }

/-- Oracle: every fetch returns 200 with the malformed `partida_sem_id` and
every send succeeds. -/
def ent_sem_id : String → Option Resposta × Bool :=
  fun _ => (some ⟨200, partida_sem_id⟩, true)

/-! ### Helper lemmas -/

lemma passo_verificar_envio_falso (d : Dados) (chat : Int) (gm : String)
    (busca : Option Resposta) : passo_verificar d chat gm busca false = (d, []) := by
  unfold passo_verificar
  cases busca with
  | none => rfl
  | some resp =>
    simp only
    split
    · split <;> rfl
    · rfl

lemma passo_verificar_busca_none (d : Dados) (chat : Int) (gm : String)
    (envio : Bool) : passo_verificar d chat gm none envio = (d, []) := rfl

lemma avaliar_notificar_inv {d : Dados} {gm : String} {p : Partida}
    {i msg : String} (h : avaliar d gm p = .notificar i msg) :
    i = p.id.getD "" ∧ i ∉ d.partidas_notificadas := by
  unfold avaliar at h
  by_cases hm : payload_malformado p = true
  · simp [hm] at h
  · by_cases hr : d.ritmos_permitidos ≠ [] ∧ pyLower (p.speed.getD "") ∉ d.ritmos_permitidos
    · simp [hm, hr] at h
    · by_cases hn : p.id.getD "" ∈ d.partidas_notificadas
      · simp [hm, hr, hn] at h
      · cases hw : p.players_white_user_name with
        | none => simp [hm, hr, hn, hw] at h
        | some w =>
          simp only [hm, hr, hn, hw, Bool.false_eq_true, if_false, if_neg hn,
            Avaliacao.notificar.injEq] at h
          exact ⟨h.1.symm, h.1 ▸ hn⟩

/-! ### Claim theorems -/

/-- C3: for every configuration, `salvar_dados` followed by `carregar_dados`
reproduces an equal configuration: the player list verbatim (order
preserved), the notified set exactly (the list serialization converted back
to a set, so order-independent), the speed filter and chat id verbatim. -/
theorem salvar_carregar_roundtrip (d : Dados) :
    carregar_dados (some (salvar_dados d)) = d := by
  cases d
  simp [carregar_dados, salvar_dados, Finset.sort_toFinset]

/-- C6: `marcar_notificada` (the line-95 add) is idempotent on set
membership: marking the same game id twice equals marking it once, and the
underlying multiset then contains the id exactly once. -/
theorem marcar_notificada_idempotente (d : Dados) (g : String) :
    marcar_notificada (marcar_notificada d g) g = marcar_notificada d g ∧
    (marcar_notificada (marcar_notificada d g) g).partidas_notificadas.val.count g = 1 := by
  constructor
  · simp [marcar_notificada]
  · exact Multiset.count_eq_one_of_mem
      (marcar_notificada (marcar_notificada d g) g).partidas_notificadas.nodup
      (by simp [marcar_notificada])

/-- C5: in the scheduled iteration for one player, if the send raises
(`envio = false`) the state is unchanged and nothing is delivered; and with a
successful send the notified set either stays as it is or gains exactly one
game id that was not yet in it (added at most once, and only via the
post-send line-95 add). -/
theorem notificada_apenas_apos_envio (d : Dados) (chat : Int) (gm : String)
    (busca : Option Resposta) :
    passo_verificar d chat gm busca false = (d, []) ∧
    ((passo_verificar d chat gm busca true).1 = d ∨
      ∃ i, i ∉ d.partidas_notificadas ∧
        (passo_verificar d chat gm busca true).1 =
          { d with partidas_notificadas := insert i d.partidas_notificadas }) := by
  refine ⟨passo_verificar_envio_falso d chat gm busca, ?_⟩
  cases busca with
  | none => exact Or.inl rfl
  | some resp =>
    by_cases hs : resp.status_code = 200
    · cases hav : avaliar d gm resp.corpo with
      | notificar i m =>
        obtain ⟨_, hmem⟩ := avaliar_notificar_inv hav
        exact Or.inr ⟨i, hmem, by simp [passo_verificar, hs, hav]⟩
      | ignorar => exact Or.inl (by simp [passo_verificar, hs, hav])
      | suprimir_ritmo => exact Or.inl (by simp [passo_verificar, hs, hav])
      | suprimir_notificada => exact Or.inl (by simp [passo_verificar, hs, hav])
      | erro_chave => exact Or.inl (by simp [passo_verificar, hs, hav])
    · exact Or.inl (by simp [passo_verificar, hs])

lemma passo_verificar_msg_chat (d : Dados) (chat : Int) (gm : String)
    (busca : Option Resposta) (envio : Bool) :
    ∀ m ∈ (passo_verificar d chat gm busca envio).2, m.1 = chat := by
  intro m hm
  unfold passo_verificar at hm
  cases busca with
  | none => simp at hm
  | some resp =>
    by_cases hs : resp.status_code = 200
    · simp only [hs, if_true] at hm
      cases hav : avaliar d gm resp.corpo <;> simp only [hav] at hm <;>
        first
          | simp at hm
          | (by_cases he : envio
             · simp only [he, if_true, List.mem_singleton] at hm
               subst hm; rfl
             · simp [he] at hm)
    · simp [hs] at hm

lemma ciclo_aux_msg_chat (ent : String → Option Resposta × Bool) (chat : Int) :
    ∀ (gms : List String) (d : Dados),
      ∀ m ∈ (ciclo_aux ent chat gms d).2, m.1 = chat := by
  intro gms
  induction gms with
  | nil => intro d m hm; simp [ciclo_aux] at hm
  | cons gm resto ih =>
    intro d m hm
    simp only [ciclo_aux, List.mem_append] at hm
    rcases hm with hm | hm
    · exact passo_verificar_msg_chat d chat gm (ent gm).1 (ent gm).2 m hm
    · exact ih _ m hm

/-- C7: if the fetch for one player raises (`busca = none`) or its send raises
(`envio = false`), the scheduled loop over the remaining players proceeds
exactly as if the failing player were absent — same final state and the same
messages delivered (in particular, nothing is sent to the user about the
failure). -/
theorem falha_nao_aborta_ciclo (ent : String → Option Resposta × Bool)
    (chat : Int) (d : Dados) (gm : String) (resto : List String)
    (hfalha : (ent gm).1 = none ∨ (ent gm).2 = false) :
    ciclo_aux ent chat (gm :: resto) d = ciclo_aux ent chat resto d := by
  have hp : passo_verificar d chat gm (ent gm).1 (ent gm).2 = (d, []) := by
    rcases hfalha with h | h
    · rw [h]; exact passo_verificar_busca_none d chat gm (ent gm).2
    · rw [h]; exact passo_verificar_envio_falso d chat gm (ent gm).1
  simp [ciclo_aux, hp]

/-- C7 witness: with an oracle whose fetch for `alice` raises, the cycle over
`["alice", "bob"]` equals the cycle over `["bob"]`. -/
theorem falha_nao_aborta_ciclo_witness :
    ciclo_aux (fun _ => (none, true)) 7 ["alice", "bob"] dados_ex =
      ciclo_aux (fun _ => (none, true)) 7 ["bob"] dados_ex :=
  falha_nao_aborta_ciclo (fun _ => (none, true)) 7 dados_ex "alice" ["bob"] (Or.inl rfl)

/-- C10: `start` unconditionally overwrites the registered chat id with the
issuing chat (whatever was registered before), persists it, changes nothing
else, and every message a subsequent scheduled cycle delivers goes to that
most recently registered chat. -/
theorem start_sobrescreve_chat (d : Dados) (chat : Int) :
    (start d chat).1.chat_id = some chat ∧
    (start d chat).2 = salvar_dados (start d chat).1 ∧
    (start d chat).2.chat_id = some chat ∧
    (start d chat).1.gms_a_monitorar = d.gms_a_monitorar ∧
    (start d chat).1.partidas_notificadas = d.partidas_notificadas ∧
    (start d chat).1.ritmos_permitidos = d.ritmos_permitidos ∧
    (chat ≠ 0 → ∀ ent, ∀ m ∈ (verificar_partidas (start d chat).1 ent).2, m.1 = chat) := by
  refine ⟨rfl, rfl, rfl, rfl, rfl, rfl, ?_⟩
  intro hchat ent m hm
  have hfalsy : chat_falsy (start d chat).1.chat_id = false := by
    simp [start, chat_falsy, hchat]
  unfold verificar_partidas at hm
  rw [hfalsy] at hm
  simp only [Bool.false_eq_true, if_false] at hm
  exact ciclo_aux_msg_chat ent _ _ _ m (by simpa [start] using hm)

/-- C10 witness: starting from the example state (registered chat 7),
`start` re-registers chat 9 and the messages of the next cycle go to 9. -/
theorem start_sobrescreve_chat_witness :
    (start dados_ex 9).1.chat_id = some 9 ∧
    ∀ m ∈ (verificar_partidas (start dados_ex 9).1 ent_ex).2, m.1 = 9 :=
  ⟨(start_sobrescreve_chat dados_ex 9).1,
   (start_sobrescreve_chat dados_ex 9).2.2.2.2.2.2 (by decide) ent_ex⟩

/-- C4: when the first argument is neither `ver` nor `todos`, the
`/filtroritmo` command replaces the filter with exactly the lower-cased
inputs that belong to the fixed enumeration (membership is the intersection
of the lowered input with the enumeration); if none is valid the state is
unchanged and the caller is told so.  Concretely,
`["bullet", "nonsense"]` yields filter `["bullet"]` and `["nonsense"]`
leaves the state unchanged. -/
theorem filtro_ritmo_intersecao (d : Dados) (a0 : String) (resto : List String)
    (hver : pyLower a0 ≠ "ver") (htodos : pyLower a0 ≠ "todos") :
    (∀ x, x ∈ ((a0 :: resto).map pyLower).filter (· ∈ ritmos_validos) ↔
        (x ∈ (a0 :: resto).map pyLower ∧ x ∈ ritmos_validos)) ∧
    (((a0 :: resto).map pyLower).filter (· ∈ ritmos_validos) ≠ [] →
      filtro_ritmo d (a0 :: resto) =
        ({ d with ritmos_permitidos :=
            ((a0 :: resto).map pyLower).filter (· ∈ ritmos_validos) },
         .atualizado ("Filtro de ritmo atualizado para: " ++
            String.intercalate ", "
              (((a0 :: resto).map pyLower).filter (· ∈ ritmos_validos))))) ∧
    (((a0 :: resto).map pyLower).filter (· ∈ ritmos_validos) = [] →
      filtro_ritmo d (a0 :: resto) = (d, .nenhum_valido)) ∧
    filtro_ritmo d ["bullet", "nonsense"] =
      ({ d with ritmos_permitidos := ["bullet"] },
       .atualizado "Filtro de ritmo atualizado para: bullet") ∧
    filtro_ritmo d ["nonsense"] = (d, .nenhum_valido) := by
  refine ⟨?_, ?_, ?_, rfl, rfl⟩
  · intro x; simp [List.mem_filter]
  · intro h
    simp only [filtro_ritmo]
    rw [if_neg hver, if_neg htodos, if_pos h]
  · intro h
    simp only [filtro_ritmo]
    rw [if_neg hver, if_neg htodos, if_neg (not_not_intro h)]

/-- C4 witness: instantiation at the example state and input
`["bullet", "nonsense"]`. -/
theorem filtro_ritmo_intersecao_witness :
    filtro_ritmo dados_ex ["bullet", "nonsense"] =
      ({ dados_ex with ritmos_permitidos := ["bullet"] },
       .atualizado "Filtro de ritmo atualizado para: bullet") :=
  (filtro_ritmo_intersecao dados_ex "bullet" ["nonsense"]
    (by decide) (by decide)).2.2.2.1

/-- C9: `/filtroritmo blitz blitz` stores the two-element sequence
`["blitz", "blitz"]` (input order and multiplicity preserved, no
deduplication), yet the evaluation step only tests membership in the filter,
so two states whose filters have the same members (and the same dedup set)
evaluate every payload identically. -/
theorem filtro_ritmo_preserva_duplicatas (d : Dados) :
    (filtro_ritmo d ["blitz", "blitz"]).1.ritmos_permitidos = ["blitz", "blitz"] ∧
    (∀ d1 d2 : Dados, ∀ gm : String, ∀ p : Partida,
      d1.partidas_notificadas = d2.partidas_notificadas →
      (∀ x, x ∈ d1.ritmos_permitidos ↔ x ∈ d2.ritmos_permitidos) →
      avaliar d1 gm p = avaliar d2 gm p) := by
  refine ⟨rfl, ?_⟩
  intro d1 d2 gm p hnotif hritmos
  have hnil : d1.ritmos_permitidos = [] ↔ d2.ritmos_permitidos = [] := by
    constructor <;> intro h
    · exact List.eq_nil_iff_forall_not_mem.mpr
        (fun x hx => (List.eq_nil_iff_forall_not_mem.mp h x) ((hritmos x).mpr hx))
    · exact List.eq_nil_iff_forall_not_mem.mpr
        (fun x hx => (List.eq_nil_iff_forall_not_mem.mp h x) ((hritmos x).mp hx))
  have hcond : (d1.ritmos_permitidos ≠ [] ∧
      pyLower (p.speed.getD "") ∉ d1.ritmos_permitidos) ↔
      (d2.ritmos_permitidos ≠ [] ∧
      pyLower (p.speed.getD "") ∉ d2.ritmos_permitidos) :=
    and_congr (not_congr hnil) (not_congr (hritmos _))
  simp only [avaliar, hnotif]
  exact if_congr Iff.rfl rfl (if_congr hcond rfl rfl)

/-- C9 witness: filters `["blitz", "blitz"]` and `["blitz"]` (same
membership, same dedup set) evaluate the example payload identically. -/
theorem filtro_ritmo_preserva_duplicatas_witness :
    avaliar { dados_ex with ritmos_permitidos := ["blitz", "blitz"] } "alice" partida_ex =
      avaliar { dados_ex with ritmos_permitidos := ["blitz"] } "alice" partida_ex :=
  (filtro_ritmo_preserva_duplicatas dados_ex).2
    { dados_ex with ritmos_permitidos := ["blitz", "blitz"] }
    { dados_ex with ritmos_permitidos := ["blitz"] }
    "alice" partida_ex rfl (fun x => by simp)

/-- C2: for a well-formed payload (id present and non-empty, `opponent` key
present, white player name present) the decision order is: suppress on speed
when the filter is non-empty and the (lowered) speed is not a member; else
suppress when the game id is already notified; else notify with the message
that carries the capitalized player name, the opponent name, the capitalized
speed label, the color, and the link `https://lichess.org/` ++ id.  With an
empty filter no payload is ever speed-suppressed, and an already-notified id
is suppressed regardless of speed. -/
theorem avaliar_decisao (d : Dados) (gm : String) (p : Partida)
    (i : String) (o : Option String) (w : String)
    (hid : p.id = some i) (hi : i ≠ "") (hop : p.opponent = some o)
    (hw : p.players_white_user_name = some w) :
    ∀ msg, msg = mensagem_auto gm (o.getD "Desconhecido") (pyLower (p.speed.getD ""))
        (if pyLower w == gm then "Brancas" else "Negras") i →
    (d.ritmos_permitidos ≠ [] ∧ pyLower (p.speed.getD "") ∉ d.ritmos_permitidos →
      avaliar d gm p = .suprimir_ritmo) ∧
    (¬(d.ritmos_permitidos ≠ [] ∧ pyLower (p.speed.getD "") ∉ d.ritmos_permitidos) →
      i ∈ d.partidas_notificadas → avaliar d gm p = .suprimir_notificada) ∧
    (¬(d.ritmos_permitidos ≠ [] ∧ pyLower (p.speed.getD "") ∉ d.ritmos_permitidos) →
      i ∉ d.partidas_notificadas →
      avaliar d gm p = .notificar i msg ∧
      Contem (pyCapitalize gm) msg ∧
      Contem (o.getD "Desconhecido") msg ∧
      Contem (pyCapitalize (pyLower (p.speed.getD ""))) msg ∧
      Contem (if pyLower w == gm then "Brancas" else "Negras") msg ∧
      Contem ("https://lichess.org/" ++ i) msg) ∧
    (d.ritmos_permitidos = [] → avaliar d gm p ≠ .suprimir_ritmo) ∧
    (i ∈ d.partidas_notificadas →
      avaliar d gm p = .suprimir_ritmo ∨ avaliar d gm p = .suprimir_notificada) := by
  intro msg hmsg
  have hmal : payload_malformado p = false := by
    simp [payload_malformado, id_presente, hid, hop, hi]
  refine ⟨?_, ?_, ?_, ?_, ?_⟩
  · intro hr
    simp [avaliar, hmal, hr, hid]
  · intro hr hmem
    simp [avaliar, hmal, hr, hid, hmem]
  · intro hr hmem
    subst hmsg
    refine ⟨by simp [avaliar, hmal, hr, hid, hmem, hw, hop], ?_, ?_, ?_, ?_, ?_⟩
    · exact ⟨"📢 *GM ",
        " está jogando!* 📢\n\n⚔️ *Oponente:* " ++ o.getD "Desconhecido" ++
          "\n⌛ *Ritmo:* " ++ pyCapitalize (pyLower (p.speed.getD "")) ++
          "\n🎨 *Cor:* " ++ (if pyLower w == gm then "Brancas" else "Negras") ++
          "\n\n🔗 [Ver partida ao vivo](" ++ link_partida i ++ ")",
        by simp [mensagem_auto, String.append_assoc]⟩
    · exact ⟨"📢 *GM " ++ pyCapitalize gm ++ " está jogando!* 📢\n\n⚔️ *Oponente:* ",
        "\n⌛ *Ritmo:* " ++ pyCapitalize (pyLower (p.speed.getD "")) ++
          "\n🎨 *Cor:* " ++ (if pyLower w == gm then "Brancas" else "Negras") ++
          "\n\n🔗 [Ver partida ao vivo](" ++ link_partida i ++ ")",
        by simp [mensagem_auto, String.append_assoc]⟩
    · exact ⟨"📢 *GM " ++ pyCapitalize gm ++ " está jogando!* 📢\n\n⚔️ *Oponente:* " ++
          o.getD "Desconhecido" ++ "\n⌛ *Ritmo:* ",
        "\n🎨 *Cor:* " ++ (if pyLower w == gm then "Brancas" else "Negras") ++
          "\n\n🔗 [Ver partida ao vivo](" ++ link_partida i ++ ")",
        by simp [mensagem_auto, String.append_assoc]⟩
    · exact ⟨"📢 *GM " ++ pyCapitalize gm ++ " está jogando!* 📢\n\n⚔️ *Oponente:* " ++
          o.getD "Desconhecido" ++ "\n⌛ *Ritmo:* " ++
          pyCapitalize (pyLower (p.speed.getD "")) ++ "\n🎨 *Cor:* ",
        "\n\n🔗 [Ver partida ao vivo](" ++ link_partida i ++ ")",
        by simp [mensagem_auto, String.append_assoc]⟩
    · exact ⟨"📢 *GM " ++ pyCapitalize gm ++ " está jogando!* 📢\n\n⚔️ *Oponente:* " ++
          o.getD "Desconhecido" ++ "\n⌛ *Ritmo:* " ++
          pyCapitalize (pyLower (p.speed.getD "")) ++ "\n🎨 *Cor:* " ++
          (if pyLower w == gm then "Brancas" else "Negras") ++
          "\n\n🔗 [Ver partida ao vivo](", ")",
        by simp [mensagem_auto, link_partida, String.append_assoc]⟩
  · intro hnil
    have hr : ¬(d.ritmos_permitidos ≠ [] ∧
        pyLower (p.speed.getD "") ∉ d.ritmos_permitidos) := fun h => h.1 hnil
    by_cases hmem : i ∈ d.partidas_notificadas <;>
      simp [avaliar, hmal, hr, hid, hmem, hw]
  · intro hmem
    by_cases hr : d.ritmos_permitidos ≠ [] ∧
        pyLower (p.speed.getD "") ∉ d.ritmos_permitidos
    · exact Or.inl (by simp [avaliar, hmal, hr, hid])
    · exact Or.inr (by simp [avaliar, hmal, hr, hid, hmem])

/-- C2 witness: the example state (filter `["bullet"]`) speed-suppresses the
example `blitz` payload. -/
theorem avaliar_decisao_witness :
    avaliar dados_ex "alice" partida_ex = .suprimir_ritmo :=
  (avaliar_decisao dados_ex "alice" partida_ex "g1" (some "bob") "Alice"
    rfl (by decide) rfl rfl _ rfl).1 (by decide)

lemma passo_agora_fst (chat : Int) (gm : String) (b : Option Resposta) (e : Bool) :
    (passo_agora chat gm b e).1 = if resposta_200 b then 1 else 0 := by
  cases b with
  | none => rfl
  | some r =>
    by_cases hs : r.status_code = 200
    · simp only [passo_agora, resposta_200, hs, if_true]
      split <;> simp
    · simp [passo_agora, resposta_200, hs]

lemma passo_agora_malformado (chat : Int) (gm : String) (r : Resposta) (e : Bool)
    (hs : r.status_code = 200) (hm : payload_malformado r.corpo = true) :
    passo_agora chat gm (some r) e = (1, []) := by
  simp [passo_agora, hs, hm]

lemma soma_passos_agora (chat : Int) (ent : String → Option Resposta × Bool) :
    ∀ gms : List String,
      ((gms.map (fun gm => passo_agora chat gm (ent gm).1 (ent gm).2)).map Prod.fst).sum
        = gms.countP (fun gm => resposta_200 (ent gm).1) := by
  intro gms
  induction gms with
  | nil => rfl
  | cons a t ih =>
    simp only [List.map_cons, List.sum_cons, List.countP_cons, ih, passo_agora_fst]
    by_cases h : resposta_200 (ent a).1 <;> simp [h, Nat.add_comm]

lemma avisos_agora_vazios (chat : Int) (ent : String → Option Resposta × Bool) :
    ∀ gms : List String,
      (∀ gm ∈ gms, ∃ r, (ent gm).1 = some r ∧ r.status_code = 200 ∧
        payload_malformado r.corpo = true) →
      ((gms.map (fun gm => passo_agora chat gm (ent gm).1 (ent gm).2)).map Prod.snd).flatten
        = [] := by
  intro gms
  induction gms with
  | nil => intro _; rfl
  | cons a t ih =>
    intro h
    obtain ⟨r, hr1, hr2, hr3⟩ := h a (by simp)
    have ht := ih (fun gm hm => h gm (by simp [hm]))
    simp only [List.map_cons, List.flatten_cons, hr1,
      passo_agora_malformado chat a r (ent a).2 hr2 hr3]
    simpa using ht

/-- C8: with a chat registered, the `jogos_encontrados` counter of the
manual check equals the number of monitored players whose fetch returned a 200
response — malformed payloads included; so when every monitored player gets
a 200-but-malformed response (and the list is non-empty), no notification is
delivered and the "nobody is playing" reply is suppressed as well. -/
theorem contador_conta_respostas_200 (d : Dados) (ent : String → Option Resposta × Bool)
    (hchat : chat_falsy d.chat_id = false) :
    (verificar_agora d ent).jogos_encontrados =
      d.gms_a_monitorar.countP (fun gm => resposta_200 (ent gm).1) ∧
    ((∀ gm ∈ d.gms_a_monitorar, ∃ r, (ent gm).1 = some r ∧ r.status_code = 200 ∧
        payload_malformado r.corpo = true) →
      (verificar_agora d ent).avisos = [] ∧
      (d.gms_a_monitorar ≠ [] → (verificar_agora d ent).resposta_ninguem = false)) := by
  have hcount : (verificar_agora d ent).jogos_encontrados =
      d.gms_a_monitorar.countP (fun gm => resposta_200 (ent gm).1) := by
    simp only [verificar_agora, hchat, Bool.false_eq_true, if_false]
    exact soma_passos_agora (d.chat_id.getD 0) ent d.gms_a_monitorar
  refine ⟨hcount, fun h => ⟨?_, ?_⟩⟩
  · simp only [verificar_agora, hchat, Bool.false_eq_true, if_false]
    exact avisos_agora_vazios (d.chat_id.getD 0) ent d.gms_a_monitorar h
  · intro hne
    have hall : ∀ gm ∈ d.gms_a_monitorar, resposta_200 (ent gm).1 = true := by
      intro gm hm
      obtain ⟨r, hr1, hr2, _⟩ := h gm hm
      simp [resposta_200, hr1, hr2]
    have hlen : d.gms_a_monitorar.countP (fun gm => resposta_200 (ent gm).1) =
        d.gms_a_monitorar.length := List.countP_eq_length.mpr hall
    have hpos : (verificar_agora d ent).jogos_encontrados ≠ 0 := by
      rw [hcount, hlen]
      simpa [List.length_eq_zero] using hne
    simp only [verificar_agora, hchat, Bool.false_eq_true, if_false] at hpos ⊢
    simpa using hpos

/-- C8 witness: one monitored player, 200 response with a missing game id:
counter 1, no notification, no "nobody is playing" reply. -/
theorem contador_conta_respostas_200_witness :
    (verificar_agora dados_ex ent_sem_id).jogos_encontrados = 1 ∧
    (verificar_agora dados_ex ent_sem_id).avisos = [] ∧
    (verificar_agora dados_ex ent_sem_id).resposta_ninguem = false := by
  have h := contador_conta_respostas_200 dados_ex ent_sem_id (by decide)
  have hm := h.2 (fun gm _ => ⟨_, rfl, rfl, by decide⟩)
  exact ⟨by rw [h.1]; decide, hm.1, hm.2 (by decide)⟩

/-- C1 counterexample: state with speed filter `["bullet"]`, a well-formed
`blitz` game fetched with a 200 for the single monitored player, all sends
succeeding.  The scheduled cycle suppresses the notification (speed filter),
yet the manual check delivers one — so the manual check does NOT suppress on
speed "exactly as the scheduled cycle does". -/
theorem manual_nao_aplica_filtro_contraexemplo :
    (verificar_partidas dados_ex ent_ex).2 = [] ∧
    (verificar_agora dados_ex ent_ex).avisos.length = 1 := by decide

/-- C1 (amended): the manual check shares the per-player fetch and
malformed-payload handling with the scheduled cycle, but differs in more
than the dedup set: its outcome is independent of both `ritmos_permitidos`
and `partidas_notificadas`, and every well-formed 200 payload is notified
regardless of the speed filter. -/
theorem manual_igual_exceto_dedup_e_ritmo :
    (∀ (d : Dados) (r : List String) (n : Finset String)
        (ent : String → Option Resposta × Bool),
      verificar_agora { d with ritmos_permitidos := r, partidas_notificadas := n } ent =
        verificar_agora d ent) ∧
    (∀ (d : Dados) (chat : Int) (gm : String) (resp : Resposta) (envio : Bool),
      resp.status_code = 200 → payload_malformado resp.corpo = true →
      passo_verificar d chat gm (some resp) envio = (d, []) ∧
      passo_agora chat gm (some resp) envio = (1, [])) ∧
    (∀ (chat : Int) (gm : String) (resp : Resposta),
      resp.status_code = 200 → payload_malformado resp.corpo = false →
      (passo_agora chat gm (some resp) true).2.length = 1) := by
  refine ⟨fun d r n ent => rfl, ?_, ?_⟩
  · intro d chat gm resp envio hs hm
    constructor
    · simp [passo_verificar, avaliar, hs, hm]
    · simp [passo_agora, hs, hm]
  · intro chat gm resp hs hm
    simp [passo_agora, hs, hm]

/-- C1 (amended) witness: the example `blitz` payload with filter
`["bullet"]` — the manual check still produces one notification despite the
filter, and its result coincides with that of the filterless state. -/
theorem manual_igual_exceto_dedup_e_ritmo_witness :
    verificar_agora { dados_padrao with gms_a_monitorar := ["alice"],
                                        ritmos_permitidos := ["bullet"],
                                        partidas_notificadas := {"g1"},
                                        chat_id := some 7 } ent_ex =
      verificar_agora { dados_padrao with gms_a_monitorar := ["alice"],
                                          chat_id := some 7 } ent_ex ∧
    (passo_agora 7 "alice" (some ⟨200, partida_ex⟩) true).2.length = 1 := by
  constructor
  · exact manual_igual_exceto_dedup_e_ritmo.1
      { dados_padrao with gms_a_monitorar := ["alice"], chat_id := some 7 }
      ["bullet"] {"g1"} ent_ex
  · exact manual_igual_exceto_dedup_e_ritmo.2.2 7 "alice" ⟨200, partida_ex⟩ rfl (by decide)
